import Mathlib

/-!
Shallow embedding of the `EntityRepository` class from
`nestjs-abstract-mongo-repository` (src/src/index.ts).

JavaScript values, objects (ordered key/value lists with spread
semantics), the error-translation switch `handleDatabaseError`, and each
public repository method modelled as a function of the underlying driver
call outcomes, producing a trace of driver operations and a result that
is either a value or a thrown error.
-/

namespace EntityRepository

/-- A JavaScript value, as far as the repository code inspects one. -/
inductive JSValue where
  | num (n : Int)
  | str (s : String)
  | obj (fields : List (String × JSValue))
  | null
  | undefined

/-- JavaScript truthiness for the values above (`update.__v && ...`). -/
def JSValue.truthy : JSValue → Bool
  | .num n => n != 0
  | .str s => s != ""
  | .obj _ => true
  | .null => false
  | .undefined => false

/-- String conversion as performed by a template literal. -/
def JSValue.display : JSValue → String
  | .num n => toString n
  | .str s => s
  | .obj _ => "[object Object]"
  | .null => "null"
  | .undefined => "undefined"

/-- A JavaScript object: ordered association list of properties. -/
abbrev JSObject := List (String × JSValue)

/-- The strict comparison `v !== x` performed between a stored numeric
version field (always a number) and an arbitrary value. -/
def strictNeqNum (v : Int) (x : JSValue) : Bool :=
  match x with
  | .num n => v != n
  | _ => true

/-- Property access `o.k`: `undefined` when the key is absent. -/
def getProp : JSObject → String → JSValue
  | [], _k => .undefined
  | (k1, v1) :: t, k => if k1 = k then v1 else getProp t k

/-- Whether the object has the property. -/
def hasProp : JSObject → String → Bool
  | [], _k => false
  | (k1, _v1) :: t, k => k1 = k || hasProp t k

/-- Replace the value of every occurrence of key `k` by `v`. -/
def replaceProp : JSObject → String → JSValue → JSObject
  | [], _k, _v => []
  | (k1, v1) :: t, k, v =>
      if k1 = k then (k, v) :: replaceProp t k v
      else (k1, v1) :: replaceProp t k v

/-- Spread-update `\x7b...o, k: v\x7d`: the property `k` now holds `v`
(replaced in place when present, appended otherwise). -/
def setProp (o : JSObject) (k : String) (v : JSValue) : JSObject :=
  if hasProp o k then replaceProp o k v else o ++ [(k, v)]

/-- HTTP status codes used by the class (from the framework enum). -/
def HttpStatus.BAD_REQUEST : Nat := 400

def HttpStatus.NOT_FOUND : Nat := 404

def HttpStatus.CONFLICT : Nat := 409

def HttpStatus.INTERNAL_SERVER_ERROR : Nat := 500

/-- An application-level exception carrying a message and a status. -/
structure HttpException where
  message : String
  status : Nat
deriving DecidableEq

/-- An error raised by an underlying driver call: an optional numeric
code, the duplicate-key map consulted for code 11000, and the name and
message fields used only by the logger. -/
structure DriverError where
  code : Option Int
  keyValue : JSObject
  errName : String
  errMessage : String

/-- Anything the repository can catch: a driver error, or one of the
application-level exceptions the class itself throws inside a try block. -/
inductive Thrown where
  | driver (e : DriverError)
  | http (e : HttpException)

/-- `error.code`: an `HttpException` carries no numeric code. -/
def errorCode : Thrown → Option Int
  | .driver e => e.code
  | .http _ => none

/-- `error.keyValue`, consulted only in the 11000 branch. -/
def keyValueOf : Thrown → JSObject
  | .driver e => e.keyValue
  | .http _ => []

/-- `Object.values(error.keyValue)[0] + " already exists"`. -/
def dupKeyMessage (kv : JSObject) : String :=
  (match kv.head? with
   | some p => p.2.display
   | none => JSValue.undefined.display) ++ " already exists"

/-- The switch statement of `handleDatabaseError`, returning the
`HttpException` the method throws. -/
def handleDatabaseError (t : Thrown) : HttpException :=
  match errorCode t with
  | none =>
      { message := "Database operation failed"
        status := HttpStatus.INTERNAL_SERVER_ERROR }
  | some c =>
      if c = 11000 then
        { message := dupKeyMessage (keyValueOf t)
          status := HttpStatus.BAD_REQUEST }
      else if c = 11001 then
        { message := "Duplicate key error", status := HttpStatus.BAD_REQUEST }
      else if c = 12000 then
        { message := "Invalid index specification"
          status := HttpStatus.BAD_REQUEST }
      else if c = 12010 then
        { message := "Cannot build index on a non-existing field"
          status := HttpStatus.BAD_REQUEST }
      else if c = 12102 then
        { message := "Index key too long", status := HttpStatus.BAD_REQUEST }
      else if c = 12134 then
        { message := "Index not found", status := HttpStatus.BAD_REQUEST }
      else
        { message := "Database operation failed"
          status := HttpStatus.INTERNAL_SERVER_ERROR }

/-- `error?.name` as interpolated into the log line. -/
def Thrown.logName : Thrown → String
  | .driver e => e.errName
  | .http _ => "HttpException"

/-- `error.message || error` as interpolated into the log line. -/
def Thrown.logMessage : Thrown → String
  | .driver e => e.errMessage
  | .http e => e.message

/-- The line `logger.error` receives. -/
def logLineFor (t : Thrown) : String :=
  "Database Error: " ++ t.logName ++ " -  " ++ t.logMessage

/-- What one call to `handleDatabaseError` observably does: the log
lines it emits and the exception it throws. -/
structure HandleOutcome where
  logLines : List String
  thrownExc : HttpException

/-- `handleDatabaseError` including the `errLogger`-guarded logging. -/
def handleDatabaseErrorLogged (errLogger : Bool) (t : Thrown) :
    HandleOutcome :=
  { logLines := if errLogger then [logLineFor t] else []
    thrownExc := handleDatabaseError t }

/-- A stored document: its numeric `__v` version and its other fields. -/
structure StoredDoc where
  ver : Int
  fields : JSObject

/-- The driver operations a method can invoke, for tracing. -/
inductive DriverOp where
  | saveOp
  | createOp
  | findOp
  | findByIdOp
  | findOneOp
  | countOp
  | distinctOp
  | updateOneOp
  | updateManyOp
  | findOneAndUpdateOp
  | findByIdAndUpdateOp
  | deleteOneOp
  | deleteManyOp
  | aggregateOp
  | startSessionOp
  | startTransactionOp
  | commitOp
  | abortOp
  | endSessionOp
deriving DecidableEq

/-- One execution of a public method: the driver operations performed in
order, the caller-supplied objects forwarded to the driver, the update
object written by a driver write (when one happens), and the outcome. -/
structure MethodRun (α : Type) where
  trace : List DriverOp
  sent : List JSObject := []
  written : Option JSObject := none
  result : Except Thrown α

/-- A try/catch body: a failed driver call is re-raised through
`handleDatabaseError`. -/
def translateResult {α : Type} : Except DriverError α → Except Thrown α
  | .ok a => .ok a
  | .error e => .error (.http (handleDatabaseError (.driver e)))

/-- A body with no try/catch: a failed driver call propagates raw. -/
def rawResult {α : Type} : Except DriverError α → Except Thrown α
  | .ok a => .ok a
  | .error e => .error (.driver e)

/-- `create`: `new entityModel(createEntity).save(options)` in a
try/catch. -/
def create (createEntity : JSObject) (r : Except DriverError StoredDoc) :
    MethodRun StoredDoc :=
  { trace := [.saveOp], sent := [createEntity], result := translateResult r }

/-- `createMany`: `entityModel.create(createEntities)` in a try/catch. -/
def createMany (createEntities : List JSObject)
    (r : Except DriverError (List StoredDoc)) : MethodRun (List StoredDoc) :=
  { trace := [.createOp], sent := createEntities, result := translateResult r }

/-- `find`: `entityModel.find(filter, projection).skip(..).limit(..)`,
with no try/catch around it. -/
def find (filter projection : JSObject)
    (r : Except DriverError (List StoredDoc)) : MethodRun (List StoredDoc) :=
  { trace := [.findOp], sent := [filter, projection], result := rawResult r }

/-- The NOT_FOUND exception `findById` and `updateById` construct. -/
def notFoundExc (idStr : String) : HttpException :=
  { message := "No data found with ID " ++ idStr
    status := HttpStatus.NOT_FOUND }

/-- The CONFLICT exception `updateById` constructs. -/
def conflictExc : HttpException :=
  { message := "Concurrency conflict", status := HttpStatus.CONFLICT }

/-- `findById`: driver lookup in a try/catch; a null result raises the
NOT_FOUND exception inside the same try block, so it too reaches the
catch and goes through `handleDatabaseError`. -/
def findById (idStr : String) (projection : JSObject)
    (r : Except DriverError (Option StoredDoc)) : MethodRun StoredDoc :=
  { trace := [.findByIdOp]
    sent := [projection]
    result :=
      match r with
      | .error e => .error (.http (handleDatabaseError (.driver e)))
      | .ok none => .error (.http (handleDatabaseError (.http (notFoundExc idStr))))
      | .ok (some d) => .ok d }

/-- `findOne`: `entityModel.findOne(filter, projection)`, with no
try/catch around it. -/
def findOne (filter projection : JSObject)
    (r : Except DriverError (Option StoredDoc)) :
    MethodRun (Option StoredDoc) :=
  { trace := [.findOneOp], sent := [filter, projection], result := rawResult r }

/-- The filter `fullTextSearch` builds from its two string arguments. -/
def fullTextSearchQuery (searchText searchField : String) : JSObject :=
  [(searchField, .obj [("$regex", .str searchText), ("$options", .str "i")])]

/-- `fullTextSearch`: a `find` on the built query, in a try/catch. -/
def fullTextSearch (searchText searchField : String)
    (r : Except DriverError (List StoredDoc)) : MethodRun (List StoredDoc) :=
  { trace := [.findOp]
    sent := [fullTextSearchQuery searchText searchField]
    result := translateResult r }

/-- `count`: `countDocuments` in a try/catch. -/
def count (filter : JSObject) (r : Except DriverError Int) :
    MethodRun Int :=
  { trace := [.countOp], sent := [filter], result := translateResult r }

/-- `distinctValues`: `distinct` in a try/catch. -/
def distinctValues (_field : String) (filter : JSObject)
    (r : Except DriverError (List JSValue)) : MethodRun (List JSValue) :=
  { trace := [.distinctOp], sent := [filter], result := translateResult r }

/-- `updateOne`: driver update in a try/catch, returning
`modifiedCount || 0`. -/
def updateOne (filter update : JSObject)
    (r : Except DriverError (Option Int)) : MethodRun Int :=
  { trace := [.updateOneOp]
    sent := [filter, update]
    result := translateResult (r.map (fun n => n.getD 0)) }

/-- `updateMany`: like `updateOne`, over many documents. -/
def updateMany (filter update : JSObject)
    (r : Except DriverError (Option Int)) : MethodRun Int :=
  { trace := [.updateManyOp]
    sent := [filter, update]
    result := translateResult (r.map (fun n => n.getD 0)) }

/-- `deleteOne`: driver delete in a try/catch, `deletedCount >= 1`. -/
def deleteOne (filter : JSObject) (r : Except DriverError Int) :
    MethodRun Bool :=
  { trace := [.deleteOneOp]
    sent := [filter]
    result := translateResult (r.map (fun n => decide (1 ≤ n))) }

/-- `deleteMany`: like `deleteOne`, over many documents. -/
def deleteMany (filter : JSObject) (r : Except DriverError Int) :
    MethodRun Bool :=
  { trace := [.deleteManyOp]
    sent := [filter]
    result := translateResult (r.map (fun n => decide (1 ≤ n))) }

/-- `aggregate`: pipeline execution in a try/catch. -/
def aggregate (pipeline : List JSObject)
    (r : Except DriverError (List JSValue)) : MethodRun (List JSValue) :=
  { trace := [.aggregateOp], sent := pipeline, result := translateResult r }

/-- `isDatabaseConnected`: reads `db.readyState === 1`; its catch block
swallows any error and returns false. -/
def isDatabaseConnected (r : Except DriverError Int) : MethodRun Bool :=
  { trace := []
    result :=
      match r with
      | .ok n => .ok (decide (n = 1))
      | .error _ => .ok false }

/-- Options of `findOneAndUpdate`, with their declared defaults. -/
structure FoauOptions where
  versionKey : String := "__v"
  incVersion : Bool := false
  upsert : Bool := false

/-- The update object `findOneAndUpdate` forwards to the driver: when
`incVersion` is set, the spread adds (or overwrites) an `$inc` property
incrementing `versionKey` by 1; otherwise the object from the caller as is. -/
def findOneAndUpdateWriteObject (updatedObject : JSObject)
    (versionKey : String) (incVersion : Bool) : JSObject :=
  if incVersion then
    setProp updatedObject "$inc" (.obj [(versionKey, .num 1)])
  else
    updatedObject

/-- `findOneAndUpdate`: one driver call on the built update object, in a
try/catch. -/
def findOneAndUpdate (filter updatedObject : JSObject) (opts : FoauOptions)
    (driver : JSObject → Except DriverError (Option StoredDoc)) :
    MethodRun (Option StoredDoc) :=
  { trace := [.findOneAndUpdateOp]
    sent := [filter]
    written := some (findOneAndUpdateWriteObject updatedObject
      opts.versionKey opts.incVersion)
    result := translateResult (driver (findOneAndUpdateWriteObject
      updatedObject opts.versionKey opts.incVersion)) }

/-- The update object `updateById` writes: the update from the caller spread
first, then `__v` set to the stored version plus one. -/
def updateByIdWriteObject (update : JSObject) (storedVer : Int) : JSObject :=
  setProp update "__v" (.num (storedVer + 1))

/-- Outcomes of the driver calls `updateById` can make. The write
outcome is a function of the update object the method sends. -/
structure UpdateByIdBehavior where
  startSessionR : Except DriverError Unit
  findR : Except DriverError (Option StoredDoc)
  updateR : JSObject → Except DriverError (Option StoredDoc)
  commitR : Except DriverError Unit
  abortR : Except DriverError Unit

/-- The catch block of `updateById`: `await session.abortTransaction()`
then `session.endSession()` then `handleDatabaseError(error)`. When the
abort itself rejects, the session is never ended and the raw abort error
propagates. -/
def updateByIdCatch (pre : List DriverOp) (written : Option JSObject)
    (t : Thrown) (abortR : Except DriverError Unit) :
    MethodRun (Option StoredDoc) :=
  match abortR with
  | .ok _ =>
      { trace := pre ++ [.abortOp, .endSessionOp]
        written := written
        result := .error (.http (handleDatabaseError t)) }
  | .error e2 =>
      { trace := pre ++ [.abortOp]
        written := written
        result := .error (.driver e2) }

/-- `updateById`: session + transaction, read by id, guarded version
comparison (`update.__v && existingDoc.__v !== update.__v`), write with
the incremented version, commit; any throw lands in the catch block. -/
def updateById (idStr : String) (update : JSObject)
    (b : UpdateByIdBehavior) : MethodRun (Option StoredDoc) :=
  match b.startSessionR with
  | .error e => { trace := [.startSessionOp], result := .error (.driver e) }
  | .ok _ =>
    let pre : List DriverOp :=
      [.startSessionOp, .startTransactionOp, .findByIdOp]
    match b.findR with
    | .error e => updateByIdCatch pre none (.driver e) b.abortR
    | .ok none => updateByIdCatch pre none (.http (notFoundExc idStr)) b.abortR
    | .ok (some existingDoc) =>
      if (getProp update "__v").truthy
          && strictNeqNum existingDoc.ver (getProp update "__v") then
        updateByIdCatch pre none (.http conflictExc) b.abortR
      else
        let written := updateByIdWriteObject update existingDoc.ver
        match b.updateR written with
        | .error e =>
            updateByIdCatch (pre ++ [.findByIdAndUpdateOp]) (some written)
              (.driver e) b.abortR
        | .ok updatedDoc =>
          match b.commitR with
          | .error e =>
              updateByIdCatch (pre ++ [.findByIdAndUpdateOp, .commitOp])
                (some written) (.driver e) b.abortR
          | .ok _ =>
              { trace := pre ++ [.findByIdAndUpdateOp, .commitOp, .endSessionOp]
                written := some written
                result := .ok updatedDoc }

/-- `startTransaction` (public): starts a session and a transaction on
it, with no try/catch. -/
def startTransaction (r : Except DriverError Unit) : MethodRun Unit :=
  match r with
  | .ok _ =>
      { trace := [.startSessionOp, .startTransactionOp], result := .ok () }
  | .error e => { trace := [.startSessionOp], result := .error (.driver e) }

/-- `commitTransaction` (public): commit in a try/catch whose catch
aborts, ends the session, and translates the error. -/
def commitTransaction (rc ra : Except DriverError Unit) : MethodRun Unit :=
  match rc with
  | .ok _ => { trace := [.commitOp], result := .ok () }
  | .error e =>
    match ra with
    | .ok _ =>
        { trace := [.commitOp, .abortOp, .endSessionOp]
          result := .error (.http (handleDatabaseError (.driver e))) }
    | .error e2 =>
        { trace := [.commitOp, .abortOp], result := .error (.driver e2) }

/-- `abortTransaction` (public): abort in a try/catch whose catch ends
the session and translates the error. -/
def abortTransaction (ra : Except DriverError Unit) : MethodRun Unit :=
  match ra with
  | .ok _ => { trace := [.abortOp], result := .ok () }
  | .error e =>
      { trace := [.abortOp, .endSessionOp]
        result := .error (.http (handleDatabaseError (.driver e))) }

/-- `endTransaction` (public): ends the session, nothing else. -/
def endTransaction : MethodRun Unit :=
  { trace := [.endSessionOp], result := .ok () }

/-! ### Concrete sample inputs for the counterexamples and witnesses -/

/-- A duplicate-key driver error with a concrete key value. -/
def dupErrA : DriverError :=
  { code := some 11000, keyValue := [("email", .str "a")]
    errName := "MongoServerError", errMessage := "E11000 duplicate key" }

/-- The same duplicate-key error with a different key value. -/
def dupErrB : DriverError :=
  { code := some 11000, keyValue := [("email", .str "b")]
    errName := "MongoServerError", errMessage := "E11000 duplicate key" }

/-- A codeless driver failure, such as a network error. -/
def netErr : DriverError :=
  { code := none, keyValue := [], errName := "MongoNetworkError"
    errMessage := "connection lost" }

/-- A stored document at version 1. -/
def docV1 : StoredDoc := { ver := 1, fields := [("name", .str "x")] }

/-- A stored document at version 2. -/
def docV2 : StoredDoc := { ver := 2, fields := [("name", .str "y")] }

/-- Driver behavior for `updateById` where every call succeeds, the
stored document is `docV1`, and the write returns `docV2`. -/
def behaviorAllOk : UpdateByIdBehavior :=
  { startSessionR := .ok (), findR := .ok (some docV1)
    updateR := fun _w => .ok (some docV2), commitR := .ok ()
    abortR := .ok () }

/-- Driver behavior where the read fails and the abort attempted by the
catch block also fails. -/
def abortFailBehavior : UpdateByIdBehavior :=
  { startSessionR := .ok (), findR := .error netErr
    updateR := fun _w => .ok none, commitR := .ok ()
    abortR := .error netErr }

/-- The generic failure exception of the default switch branch. -/
def dbFailExc : HttpException :=
  { message := "Database operation failed"
    status := HttpStatus.INTERNAL_SERVER_ERROR }

/-! ### Properties of object spread -/

theorem getProp_replaceProp_same (o : JSObject) (k : String) (v : JSValue)
    (h : hasProp o k = true) : getProp (replaceProp o k v) k = v := by
  induction o with
  | nil => simp [hasProp] at h
  | cons p t ih =>
    obtain ⟨k1, v1⟩ := p
    by_cases h1 : k1 = k
    · subst h1
      simp [replaceProp, getProp]
    · simp only [hasProp, Bool.or_eq_true, decide_eq_true_eq] at h
      rcases h with h | h
      · exact absurd h h1
      · simp [replaceProp, getProp, h1, ih h]

theorem getProp_replaceProp_other (o : JSObject) (k : String) (v : JSValue)
    (k2 : String) (h : k2 ≠ k) :
    getProp (replaceProp o k v) k2 = getProp o k2 := by
  induction o with
  | nil => simp [replaceProp]
  | cons p t ih =>
    obtain ⟨k1, v1⟩ := p
    by_cases h1 : k1 = k
    · subst h1
      simp [replaceProp, getProp, Ne.symm h, ih]
    · by_cases h2 : k1 = k2
      · subst h2
        simp [replaceProp, getProp, h1]
      · simp [replaceProp, getProp, h1, h2, ih]

theorem getProp_append_single_same (o : JSObject) (k : String) (v : JSValue)
    (h : hasProp o k = false) : getProp (o ++ [(k, v)]) k = v := by
  induction o with
  | nil => simp [getProp]
  | cons p t ih =>
    obtain ⟨k1, v1⟩ := p
    simp only [hasProp, Bool.or_eq_false_iff, decide_eq_false_iff_not] at h
    simp [getProp, h.1, ih h.2]

theorem getProp_append_single_other (o : JSObject) (k : String) (v : JSValue)
    (k2 : String) (h : k2 ≠ k) :
    getProp (o ++ [(k, v)]) k2 = getProp o k2 := by
  induction o with
  | nil => simp [getProp, Ne.symm h]
  | cons p t ih =>
    obtain ⟨k1, v1⟩ := p
    by_cases h1 : k1 = k2
    · subst h1
      simp [getProp]
    · simp [getProp, h1, ih]

/-- Spread sets the named property. -/
theorem getProp_setProp_same (o : JSObject) (k : String) (v : JSValue) :
    getProp (setProp o k v) k = v := by
  unfold setProp
  by_cases h : hasProp o k = true
  · rw [if_pos h]
    exact getProp_replaceProp_same o k v h
  · rw [if_neg h]
    exact getProp_append_single_same o k v (Bool.not_eq_true _ |>.mp h)

/-- Spread leaves every other property unchanged. -/
theorem getProp_setProp_other (o : JSObject) (k : String) (v : JSValue)
    (k2 : String) (h : k2 ≠ k) :
    getProp (setProp o k v) k2 = getProp o k2 := by
  unfold setProp
  by_cases h1 : hasProp o k = true
  · rw [if_pos h1]
    exact getProp_replaceProp_other o k v k2 h
  · rw [if_neg h1]
    exact getProp_append_single_other o k v k2 h

/-! ### Properties of the error translation -/

theorem handleDatabaseError_status (t : Thrown) :
    (handleDatabaseError t).status = HttpStatus.BAD_REQUEST ∨
      (handleDatabaseError t).status = HttpStatus.INTERNAL_SERVER_ERROR := by
  unfold handleDatabaseError
  cases errorCode t with
  | none => exact Or.inr rfl
  | some c =>
    by_cases h1 : c = 11000
    · simp [h1]
    · by_cases h2 : c = 11001
      · simp [h1, h2]
      · by_cases h3 : c = 12000
        · simp [h1, h2, h3]
        · by_cases h4 : c = 12010
          · simp [h1, h2, h3, h4]
          · by_cases h5 : c = 12102
            · simp [h1, h2, h3, h4, h5]
            · by_cases h6 : c = 12134
              · simp [h1, h2, h3, h4, h5, h6]
              · simp [h1, h2, h3, h4, h5, h6]

theorem handleDatabaseError_not_conflict (t : Thrown) :
    (handleDatabaseError t).status ≠ HttpStatus.NOT_FOUND ∧
      (handleDatabaseError t).status ≠ HttpStatus.CONFLICT := by
  rcases handleDatabaseError_status t with h | h <;>
    rw [h] <;> exact ⟨by decide, by decide⟩

theorem handleDatabaseError_default (t : Thrown)
    (h : ∀ c, errorCode t = some c →
      c ≠ 11000 ∧ c ≠ 11001 ∧ c ≠ 12000 ∧ c ≠ 12010 ∧ c ≠ 12102 ∧ c ≠ 12134) :
    handleDatabaseError t =
      { message := "Database operation failed"
        status := HttpStatus.INTERNAL_SERVER_ERROR } := by
  unfold handleDatabaseError
  cases hc : errorCode t with
  | none => rfl
  | some c =>
    obtain ⟨h1, h2, h3, h4, h5, h6⟩ := h c hc
    simp [h1, h2, h3, h4, h5, h6]

/-! ### Shape of an `updateById` execution -/

theorem updateByIdCatch_http (pre : List DriverOp) (w : Option JSObject)
    (t : Thrown) (ar : Except DriverError Unit) (e : HttpException)
    (h : (updateByIdCatch pre w t ar).result = .error (.http e)) :
    e = handleDatabaseError t := by
  unfold updateByIdCatch at h
  cases ar with
  | ok _ =>
    simp only [Except.error.injEq, Thrown.http.injEq] at h
    exact h.symm
  | error e2 => simp at h

/-- Every execution of `updateById` has one of five shapes: the session
could not be opened; the catch block ran before any write (driver read
failure, missing document, or version conflict); the catch block ran
after the write failed; the catch block ran after the commit failed; or
the whole path succeeded. -/
theorem updateById_shape (idStr : String) (update : JSObject)
    (b : UpdateByIdBehavior) :
    (∃ e, b.startSessionR = .error e ∧ updateById idStr update b =
      { trace := [.startSessionOp], written := none
        result := .error (.driver e) })
    ∨ (b.startSessionR = .ok () ∧ ∃ t, updateById idStr update b =
      updateByIdCatch [.startSessionOp, .startTransactionOp, .findByIdOp]
        none t b.abortR)
    ∨ (b.startSessionR = .ok () ∧ ∃ doc e, b.findR = .ok (some doc) ∧
      b.updateR (updateByIdWriteObject update doc.ver) = .error e ∧
      updateById idStr update b =
      updateByIdCatch [.startSessionOp, .startTransactionOp, .findByIdOp,
          .findByIdAndUpdateOp]
        (some (updateByIdWriteObject update doc.ver)) (.driver e) b.abortR)
    ∨ (b.startSessionR = .ok () ∧ ∃ doc d e, b.findR = .ok (some doc) ∧
      b.updateR (updateByIdWriteObject update doc.ver) = .ok d ∧
      b.commitR = .error e ∧
      updateById idStr update b =
      updateByIdCatch [.startSessionOp, .startTransactionOp, .findByIdOp,
          .findByIdAndUpdateOp, .commitOp]
        (some (updateByIdWriteObject update doc.ver)) (.driver e) b.abortR)
    ∨ (b.startSessionR = .ok () ∧ ∃ doc d, b.findR = .ok (some doc) ∧
      b.updateR (updateByIdWriteObject update doc.ver) = .ok d ∧
      b.commitR = .ok () ∧
      updateById idStr update b =
      { trace := [.startSessionOp, .startTransactionOp, .findByIdOp,
          .findByIdAndUpdateOp, .commitOp, .endSessionOp]
        written := some (updateByIdWriteObject update doc.ver)
        result := .ok d }) := by
  cases hss : b.startSessionR with
  | error e =>
    exact Or.inl ⟨e, rfl, by simp [updateById, hss]⟩
  | ok u =>
    obtain rfl : u = () := rfl
    cases hf : b.findR with
    | error e =>
      exact Or.inr (Or.inl ⟨rfl, .driver e, by simp [updateById, hss, hf]⟩)
    | ok od =>
      cases od with
      | none =>
        exact Or.inr (Or.inl ⟨rfl, .http (notFoundExc idStr),
          by simp [updateById, hss, hf]⟩)
      | some doc =>
        by_cases hg : ((getProp update "__v").truthy
            && strictNeqNum doc.ver (getProp update "__v")) = true
        · exact Or.inr (Or.inl ⟨rfl, .http conflictExc,
            by simp [updateById, hss, hf, hg]⟩)
        · cases hu : b.updateR (updateByIdWriteObject update doc.ver) with
          | error e =>
            exact Or.inr (Or.inr (Or.inl ⟨rfl, doc, e, rfl, hu,
              by simp [updateById, hss, hf, hg, hu]⟩))
          | ok d =>
            cases hc : b.commitR with
            | error e =>
              exact Or.inr (Or.inr (Or.inr (Or.inl ⟨rfl, doc, d, e, rfl, hu,
                rfl, by simp [updateById, hss, hf, hg, hu, hc]⟩)))
            | ok u2 =>
              obtain rfl : u2 = () := rfl
              exact Or.inr (Or.inr (Or.inr (Or.inr ⟨rfl, doc, d, rfl, hu,
                rfl, by simp [updateById, hss, hf, hg, hu, hc]⟩)))

/-- A trace without duplicate operations invokes each at most once. -/
theorem count_le_one_of_nodup (l : List DriverOp) (h : l.Nodup)
    (op : DriverOp) : l.count op ≤ 1 :=
  List.nodup_iff_count_le_one.mp h op

theorem updateByIdCatch_trace_nodup (pre : List DriverOp) (w : Option JSObject)
    (t : Thrown) (ar : Except DriverError Unit)
    (h : (pre ++ [DriverOp.abortOp, DriverOp.endSessionOp]).Nodup) :
    (updateByIdCatch pre w t ar).trace.Nodup := by
  unfold updateByIdCatch
  cases ar with
  | ok _ => exact h
  | error e =>
    simp only []
    exact List.Nodup.sublist
      (show List.Sublist (pre ++ [DriverOp.abortOp])
        (pre ++ [DriverOp.abortOp, DriverOp.endSessionOp]) by simp) h

theorem updateById_trace_nodup (idStr : String) (update : JSObject)
    (b : UpdateByIdBehavior) : (updateById idStr update b).trace.Nodup := by
  rcases updateById_shape idStr update b with
    ⟨e, _, h⟩ | ⟨_, t, h⟩ | ⟨_, doc, e, _, _, h⟩ | ⟨_, doc, d, e, _, _, _, h⟩ |
    ⟨_, doc, d, _, _, _, h⟩ <;> rw [h]
  · exact (by decide : ([DriverOp.startSessionOp] : List DriverOp).Nodup)
  · exact updateByIdCatch_trace_nodup _ _ _ _ (by decide)
  · exact updateByIdCatch_trace_nodup _ _ _ _ (by decide)
  · exact updateByIdCatch_trace_nodup _ _ _ _ (by decide)
  · exact (by decide :
      ([DriverOp.startSessionOp, DriverOp.startTransactionOp,
        DriverOp.findByIdOp, DriverOp.findByIdAndUpdateOp, DriverOp.commitOp,
        DriverOp.endSessionOp] : List DriverOp).Nodup)

theorem updateByIdCatch_ok_trace (pre : List DriverOp) (w : Option JSObject)
    (t : Thrown) : (updateByIdCatch pre w t (.ok ())).trace =
      pre ++ [.abortOp, .endSessionOp] := rfl

theorem updateByIdCatch_ok_result (pre : List DriverOp) (w : Option JSObject)
    (t : Thrown) : (updateByIdCatch pre w t (.ok ())).result =
      .error (.http (handleDatabaseError t)) := rfl

theorem updateByIdCatch_result_not_ok (pre : List DriverOp)
    (w : Option JSObject) (t : Thrown) (ar : Except DriverError Unit)
    (d : Option StoredDoc) :
    (updateByIdCatch pre w t ar).result ≠ .ok d := by
  unfold updateByIdCatch
  cases ar <;> simp

theorem startTransaction_trace_nodup (r : Except DriverError Unit) :
    (startTransaction r).trace.Nodup := by
  unfold startTransaction
  cases r with
  | ok _ =>
    exact (by decide : ([DriverOp.startSessionOp,
      DriverOp.startTransactionOp] : List DriverOp).Nodup)
  | error e =>
    exact (by decide : ([DriverOp.startSessionOp] : List DriverOp).Nodup)

theorem commitTransaction_trace_nodup (rc ra : Except DriverError Unit) :
    (commitTransaction rc ra).trace.Nodup := by
  unfold commitTransaction
  cases rc with
  | ok _ => exact (by decide : ([DriverOp.commitOp] : List DriverOp).Nodup)
  | error e =>
    cases ra with
    | ok _ =>
      exact (by decide : ([DriverOp.commitOp, DriverOp.abortOp,
        DriverOp.endSessionOp] : List DriverOp).Nodup)
    | error e2 =>
      exact (by decide :
        ([DriverOp.commitOp, DriverOp.abortOp] : List DriverOp).Nodup)

theorem abortTransaction_trace_nodup (ra : Except DriverError Unit) :
    (abortTransaction ra).trace.Nodup := by
  unfold abortTransaction
  cases ra with
  | ok _ => exact (by decide : ([DriverOp.abortOp] : List DriverOp).Nodup)
  | error e =>
    exact (by decide :
      ([DriverOp.abortOp, DriverOp.endSessionOp] : List DriverOp).Nodup)

/-! ### Claims -/

/-- Claim C1, counterexample: `find` performs no try/catch, so a failed
driver call propagates as the raw driver error, not as an
`HttpException` — refuting "no raw driver exception ever propagates to
the caller". -/
theorem claim_C1_counterexample :
    (find [] [] (.error netErr)).result = .error (.driver netErr) := rfl

/-- Claim C1, amended: every public method that wraps its driver call in
a try/catch (`create`, `createMany`, `findById`, `fullTextSearch`,
`count`, `distinctValues`, `updateOne`, `updateMany`, `findOneAndUpdate`,
`updateById` when its abort succeeds, `deleteOne`, `deleteMany`,
`commitTransaction` when its abort succeeds, `abortTransaction`,
`aggregate`) re-raises a driver exception as the `HttpException` built by
`handleDatabaseError`; but `find`, `findOne` and `startTransaction`
propagate the raw driver exception, and `isDatabaseConnected` swallows it
and returns false. -/
theorem claim_C1_amended (e : DriverError) (o p : JSObject)
    (oo : List JSObject) (s f idStr : String) :
    (create o (.error e)).result =
      .error (.http (handleDatabaseError (.driver e)))
    ∧ (createMany oo (.error e)).result =
      .error (.http (handleDatabaseError (.driver e)))
    ∧ (findById idStr p (.error e)).result =
      .error (.http (handleDatabaseError (.driver e)))
    ∧ (fullTextSearch s f (.error e)).result =
      .error (.http (handleDatabaseError (.driver e)))
    ∧ (count o (.error e)).result =
      .error (.http (handleDatabaseError (.driver e)))
    ∧ (distinctValues f o (.error e)).result =
      .error (.http (handleDatabaseError (.driver e)))
    ∧ (updateOne o p (.error e)).result =
      .error (.http (handleDatabaseError (.driver e)))
    ∧ (updateMany o p (.error e)).result =
      .error (.http (handleDatabaseError (.driver e)))
    ∧ (findOneAndUpdate o p {} (fun _w => .error e)).result =
      .error (.http (handleDatabaseError (.driver e)))
    ∧ (updateById idStr o
        { startSessionR := .ok (), findR := .error e
          updateR := fun _w => .ok none, commitR := .ok ()
          abortR := .ok () }).result =
      .error (.http (handleDatabaseError (.driver e)))
    ∧ (deleteOne o (.error e)).result =
      .error (.http (handleDatabaseError (.driver e)))
    ∧ (deleteMany o (.error e)).result =
      .error (.http (handleDatabaseError (.driver e)))
    ∧ (commitTransaction (.error e) (.ok ())).result =
      .error (.http (handleDatabaseError (.driver e)))
    ∧ (abortTransaction (.error e)).result =
      .error (.http (handleDatabaseError (.driver e)))
    ∧ (aggregate oo (.error e)).result =
      .error (.http (handleDatabaseError (.driver e)))
    ∧ (find o p (.error e)).result = .error (.driver e)
    ∧ (findOne o p (.error e)).result = .error (.driver e)
    ∧ (startTransaction (.error e)).result = .error (.driver e)
    ∧ (isDatabaseConnected (.error e)).result = .ok false :=
  ⟨rfl, rfl, rfl, rfl, rfl, rfl, rfl, rfl, rfl, rfl, rfl, rfl, rfl, rfl,
    rfl, rfl, rfl, rfl, rfl⟩

/-- Claim C2, counterexample: two driver errors carrying the same code
11000 are translated to different messages, so the message for code
11000 is not fixed — it is built from the `keyValue` of the error. -/
theorem claim_C2_counterexample :
    handleDatabaseError (.driver dupErrA) =
      { message := "a already exists", status := HttpStatus.BAD_REQUEST }
    ∧ handleDatabaseError (.driver dupErrB) =
      { message := "b already exists", status := HttpStatus.BAD_REQUEST }
    ∧ errorCode (.driver dupErrA) = errorCode (.driver dupErrB)
    ∧ handleDatabaseError (.driver dupErrA) ≠
      handleDatabaseError (.driver dupErrB) := by
  refine ⟨rfl, rfl, rfl, ?_⟩
  decide

/-- Claim C2, amended: every caught error with code 11001, 12000, 12010,
12102 or 12134 maps to BAD_REQUEST with the fixed message of that code;
code 11000 maps to BAD_REQUEST with the data-dependent message built
from the first value of the `keyValue` of the error; every error with any
other code, or none, maps to INTERNAL_SERVER_ERROR with "Database
operation failed". -/
theorem claim_C2_amended (kv : JSObject) (nm ms : String) (t : Thrown) :
    handleDatabaseError (.driver ⟨some 11000, kv, nm, ms⟩) =
      { message := dupKeyMessage kv, status := HttpStatus.BAD_REQUEST }
    ∧ handleDatabaseError (.driver ⟨some 11001, kv, nm, ms⟩) =
      { message := "Duplicate key error", status := HttpStatus.BAD_REQUEST }
    ∧ handleDatabaseError (.driver ⟨some 12000, kv, nm, ms⟩) =
      { message := "Invalid index specification"
        status := HttpStatus.BAD_REQUEST }
    ∧ handleDatabaseError (.driver ⟨some 12010, kv, nm, ms⟩) =
      { message := "Cannot build index on a non-existing field"
        status := HttpStatus.BAD_REQUEST }
    ∧ handleDatabaseError (.driver ⟨some 12102, kv, nm, ms⟩) =
      { message := "Index key too long", status := HttpStatus.BAD_REQUEST }
    ∧ handleDatabaseError (.driver ⟨some 12134, kv, nm, ms⟩) =
      { message := "Index not found", status := HttpStatus.BAD_REQUEST }
    ∧ (errorCode t ∈ ([some 11000, some 11001, some 12000, some 12010,
        some 12102, some 12134] : List (Option Int))
      ∨ handleDatabaseError t =
        { message := "Database operation failed"
          status := HttpStatus.INTERNAL_SERVER_ERROR }) := by
  refine ⟨rfl, rfl, rfl, rfl, rfl, rfl, ?_⟩
  by_cases hm : errorCode t ∈ ([some 11000, some 11001, some 12000,
      some 12010, some 12102, some 12134] : List (Option Int))
  · exact Or.inl hm
  · refine Or.inr (handleDatabaseError_default t ?_)
    intro c hc
    rw [hc] at hm
    simp only [List.mem_cons, List.mem_singleton, Option.some.injEq,
      not_or] at hm
    exact ⟨hm.1, hm.2.1, hm.2.2.1, hm.2.2.2.1, hm.2.2.2.2.1,
      hm.2.2.2.2.2.1⟩

/-- Claim C9: the exception thrown by `handleDatabaseError` is identical
whether `errLogger` is true or false; the flag only controls whether the
log line is emitted. -/
theorem claim_C9 (t : Thrown) :
    (handleDatabaseErrorLogged true t).thrownExc =
      (handleDatabaseErrorLogged false t).thrownExc
    ∧ (handleDatabaseErrorLogged true t).thrownExc = handleDatabaseError t
    ∧ (handleDatabaseErrorLogged false t).thrownExc = handleDatabaseError t
    ∧ (handleDatabaseErrorLogged true t).logLines = [logLineFor t]
    ∧ (handleDatabaseErrorLogged false t).logLines = [] :=
  ⟨rfl, rfl, rfl, rfl, rfl⟩

/-- Claim C3, counterexample: with the stored version 1 and the update
carrying `__v = 0`, the two version values strictly differ, yet no
concurrency-conflict error is thrown: the guard `update.__v && ...` is
falsy at 0, so the write proceeds and the call succeeds. -/
theorem claim_C3_counterexample :
    strictNeqNum docV1.ver (getProp [("__v", JSValue.num 0)] "__v") = true
    ∧ (updateById "a" [("__v", JSValue.num 0)] behaviorAllOk).result =
        .ok (some docV2)
    ∧ (updateById "a" [("__v", JSValue.num 0)] behaviorAllOk).written =
        some (updateByIdWriteObject [("__v", JSValue.num 0)] docV1.ver)
    ∧ (updateById "a" [("__v", JSValue.num 0)] behaviorAllOk).trace =
        [.startSessionOp, .startTransactionOp, .findByIdOp,
          .findByIdAndUpdateOp, .commitOp, .endSessionOp] :=
  ⟨rfl, rfl, rfl, rfl⟩

/-- Claim C3, amended: `updateById` opens a session, starts a
transaction and reads the document inside it; whenever `update.__v` is
truthy and the stored `__v` strictly differs from it, the method throws
the concurrency-conflict exception, aborts the transaction, and performs
no write. -/
theorem claim_C3_amended (idStr : String) (update : JSObject)
    (b : UpdateByIdBehavior) (doc : StoredDoc)
    (hs : b.startSessionR = .ok ()) (hf : b.findR = .ok (some doc))
    (ht : (getProp update "__v").truthy = true)
    (hv : strictNeqNum doc.ver (getProp update "__v") = true)
    (ha : b.abortR = .ok ()) :
    (updateById idStr update b).trace =
      [.startSessionOp, .startTransactionOp, .findByIdOp, .abortOp,
        .endSessionOp]
    ∧ (updateById idStr update b).written = none
    ∧ (updateById idStr update b).result =
        .error (.http (handleDatabaseError (.http conflictExc))) := by
  have h1 : updateById idStr update b =
      updateByIdCatch [.startSessionOp, .startTransactionOp, .findByIdOp]
        none (.http conflictExc) b.abortR := by
    simp [updateById, hs, hf, ht, hv]
  rw [h1, ha]
  exact ⟨rfl, rfl, rfl⟩

/-- Witness for the amended claim C3 at a concrete conflicting input. -/
theorem claim_C3_amended_witness :
    (updateById "a" [("__v", JSValue.num 5)] behaviorAllOk).written = none :=
  (claim_C3_amended "a" [("__v", JSValue.num 5)] behaviorAllOk docV1 rfl rfl
    rfl rfl rfl).2.1

/-- Claim C4: the internal NOT_FOUND exception of `findById` and the
internal CONFLICT exception of `updateById` are caught by the same
methods and re-thrown through `handleDatabaseError` as
INTERNAL_SERVER_ERROR with message "Database operation failed"; no
caller of these methods ever observes a NOT_FOUND or CONFLICT status. -/
theorem claim_C4 (idStr : String) (p update : JSObject)
    (b : UpdateByIdBehavior) (doc : StoredDoc)
    (hs : b.startSessionR = .ok ()) (hf : b.findR = .ok (some doc))
    (ht : (getProp update "__v").truthy = true)
    (hv : strictNeqNum doc.ver (getProp update "__v") = true)
    (ha : b.abortR = .ok ()) :
    (findById idStr p (.ok none)).result =
      .error (.http dbFailExc)
    ∧ (updateById idStr update b).result =
      .error (.http dbFailExc)
    ∧ (∀ (r : Except DriverError (Option StoredDoc)) (e : HttpException),
        (findById idStr p r).result = .error (.http e) →
          e.status ≠ HttpStatus.NOT_FOUND ∧ e.status ≠ HttpStatus.CONFLICT)
    ∧ (∀ (b2 : UpdateByIdBehavior) (u2 : JSObject) (e : HttpException),
        (updateById idStr u2 b2).result = .error (.http e) →
          e.status ≠ HttpStatus.NOT_FOUND ∧
            e.status ≠ HttpStatus.CONFLICT) := by
  refine ⟨rfl, ?_, ?_, ?_⟩
  · have h1 : updateById idStr update b =
        updateByIdCatch [.startSessionOp, .startTransactionOp, .findByIdOp]
          none (.http conflictExc) b.abortR := by
      simp [updateById, hs, hf, ht, hv]
    rw [h1, ha]
    rfl
  · intro r e h
    cases r with
    | error e2 =>
      simp only [findById] at h
      simp only [Except.error.injEq, Thrown.http.injEq] at h
      exact h ▸ handleDatabaseError_not_conflict (.driver e2)
    | ok od =>
      cases od with
      | none =>
        simp only [findById] at h
        simp only [Except.error.injEq, Thrown.http.injEq] at h
        exact h ▸ handleDatabaseError_not_conflict (.http (notFoundExc idStr))
      | some d =>
        simp [findById] at h
  · intro b2 u2 e h
    rcases updateById_shape idStr u2 b2 with
      ⟨e1, _, heq⟩ | ⟨_, t, heq⟩ | ⟨_, doc2, e1, _, _, heq⟩ |
      ⟨_, doc2, d, e1, _, _, _, heq⟩ | ⟨_, doc2, d, _, _, _, heq⟩ <;>
      rw [heq] at h
    · simp at h
    · exact (updateByIdCatch_http _ _ _ _ _ h) ▸
        handleDatabaseError_not_conflict t
    · exact (updateByIdCatch_http _ _ _ _ _ h) ▸
        handleDatabaseError_not_conflict (.driver e1)
    · exact (updateByIdCatch_http _ _ _ _ _ h) ▸
        handleDatabaseError_not_conflict (.driver e1)
    · simp at h

/-- Witness for claim C4 at a concrete conflicting input. -/
theorem claim_C4_witness :
    (updateById "a" [("__v", JSValue.num 5)] behaviorAllOk).result =
      .error (.http dbFailExc) :=
  (claim_C4 "a" [] [("__v", JSValue.num 5)] behaviorAllOk docV1 rfl rfl
    rfl rfl rfl).2.1

/-- Claim C5: when `update.__v` is falsy (absent, 0, empty, null), the
version-conflict check is skipped entirely and the update proceeds
whatever the stored version is. -/
theorem claim_C5 (idStr : String) (update : JSObject)
    (b : UpdateByIdBehavior) (doc : StoredDoc) (d : Option StoredDoc)
    (hs : b.startSessionR = .ok ()) (hf : b.findR = .ok (some doc))
    (ht : (getProp update "__v").truthy = false)
    (hu : b.updateR (updateByIdWriteObject update doc.ver) = .ok d)
    (hc : b.commitR = .ok ()) :
    (updateById idStr update b).result = .ok d
    ∧ (updateById idStr update b).written =
        some (updateByIdWriteObject update doc.ver)
    ∧ (updateById idStr update b).trace =
        [.startSessionOp, .startTransactionOp, .findByIdOp,
          .findByIdAndUpdateOp, .commitOp, .endSessionOp] := by
  have h1 : updateById idStr update b =
      { trace := [.startSessionOp, .startTransactionOp, .findByIdOp,
          .findByIdAndUpdateOp, .commitOp, .endSessionOp]
        written := some (updateByIdWriteObject update doc.ver)
        result := .ok d } := by
    simp [updateById, hs, hf, ht, hu, hc]
  rw [h1]
  exact ⟨rfl, rfl, rfl⟩

/-- Witness for claim C5: an update without `__v` succeeds against a
document at version 1. -/
theorem claim_C5_witness :
    (updateById "a" [] behaviorAllOk).result = .ok (some docV2) :=
  (claim_C5 "a" [] behaviorAllOk docV1 (some docV2) rfl rfl rfl rfl rfl).1

/-- Claim C6, counterexample: when the abort issued by the catch block
itself fails, `updateById` ends on a trace with no `endSession` and the
raw abort error propagates — the session is not ended on that path. -/
theorem claim_C6_counterexample :
    (updateById "a" [] abortFailBehavior).trace =
      [.startSessionOp, .startTransactionOp, .findByIdOp, .abortOp]
    ∧ DriverOp.endSessionOp ∉ (updateById "a" [] abortFailBehavior).trace
    ∧ (updateById "a" [] abortFailBehavior).result =
      .error (.driver netErr) := by
  refine ⟨rfl, ?_, rfl⟩
  have h : (updateById "a" [] abortFailBehavior).trace =
      [DriverOp.startSessionOp, DriverOp.startTransactionOp,
        DriverOp.findByIdOp, DriverOp.abortOp] := rfl
  rw [h]
  decide

/-- Claim C6, amended: on every execution path of `updateById` where the
session was opened and the abort call of the catch block succeeds when
reached, the session is ended before the method returns or throws;
commit and abort each appear at most once, success paths commit and do
not abort, error paths abort; and when the commit call also succeeds
when reached, the transaction is resolved exactly once. (When the abort
call fails the session is not ended, and a failed commit is followed by
an abort.) -/
theorem claim_C6_amended (idStr : String) (update : JSObject)
    (b : UpdateByIdBehavior)
    (hs : b.startSessionR = .ok ()) (ha : b.abortR = .ok ()) :
    DriverOp.endSessionOp ∈ (updateById idStr update b).trace
    ∧ (updateById idStr update b).trace.count .commitOp ≤ 1
    ∧ (updateById idStr update b).trace.count .abortOp ≤ 1
    ∧ (∀ d, (updateById idStr update b).result = .ok d →
        DriverOp.commitOp ∈ (updateById idStr update b).trace ∧
          DriverOp.abortOp ∉ (updateById idStr update b).trace)
    ∧ (∀ t, (updateById idStr update b).result = .error t →
        DriverOp.abortOp ∈ (updateById idStr update b).trace)
    ∧ (b.commitR = .ok () →
        (updateById idStr update b).trace.count .commitOp
          + (updateById idStr update b).trace.count .abortOp = 1) := by
  rcases updateById_shape idStr update b with
    ⟨e, hssErr, heq⟩ | ⟨_, t, heq⟩ | ⟨_, doc2, e, _, _, heq⟩ |
    ⟨_, doc2, d2, e, _, _, hcErr, heq⟩ | ⟨_, doc2, d2, _, _, hcOk, heq⟩
  · rw [hs] at hssErr
    simp at hssErr
  · rw [heq, ha]
    simp only [updateByIdCatch_ok_trace, updateByIdCatch_ok_result]
    refine ⟨by decide, by decide, by decide, ?_, ?_, ?_⟩
    · intro d hd
      simp at hd
    · intro t2 _
      decide
    · intro _
      decide
  · rw [heq, ha]
    simp only [updateByIdCatch_ok_trace, updateByIdCatch_ok_result]
    refine ⟨by decide, by decide, by decide, ?_, ?_, ?_⟩
    · intro d hd
      simp at hd
    · intro t2 _
      decide
    · intro _
      decide
  · rw [heq, ha]
    simp only [updateByIdCatch_ok_trace, updateByIdCatch_ok_result]
    refine ⟨by decide, by decide, by decide, ?_, ?_, ?_⟩
    · intro d hd
      simp at hd
    · intro t2 _
      decide
    · intro hck
      rw [hck] at hcErr
      simp at hcErr
  · rw [heq]
    dsimp only
    refine ⟨by decide, by decide, by decide, ?_, ?_, ?_⟩
    · intro d _
      exact ⟨by decide, by decide⟩
    · intro t2 h2
      simp at h2
    · intro _
      decide

/-- Witness for the amended claim C6 at a concrete failing read whose
abort succeeds. -/
theorem claim_C6_amended_witness :
    DriverOp.endSessionOp ∈ (updateById "a" []
      { startSessionR := .ok (), findR := .error netErr
        updateR := fun _w => .ok none, commitR := .ok ()
        abortR := .ok () }).trace :=
  (claim_C6_amended "a" []
    { startSessionR := .ok (), findR := .error netErr
      updateR := fun _w => .ok none, commitR := .ok ()
      abortR := .ok () } rfl rfl).1

/-- Claim C7: whenever `updateById` succeeds, the update object written
to the driver carries `__v` equal to the stored version plus one — the
`__v` supplied by the caller is overridden because the increment is
spread after the fields from the caller, which are otherwise passed
through. -/
theorem claim_C7 (idStr : String) (update : JSObject)
    (b : UpdateByIdBehavior) (doc : StoredDoc) (d : Option StoredDoc)
    (hf : b.findR = .ok (some doc))
    (hr : (updateById idStr update b).result = .ok d) :
    (updateById idStr update b).written =
      some (updateByIdWriteObject update doc.ver)
    ∧ getProp (updateByIdWriteObject update doc.ver) "__v" =
      .num (doc.ver + 1) := by
  rcases updateById_shape idStr update b with
    ⟨e, _, heq⟩ | ⟨_, t, heq⟩ | ⟨_, doc2, e, _, _, heq⟩ |
    ⟨_, doc2, d2, e, _, _, _, heq⟩ | ⟨_, doc2, d2, hf2, _, _, heq⟩
  · rw [heq] at hr
    simp at hr
  · rw [heq] at hr
    exact absurd hr (updateByIdCatch_result_not_ok _ _ _ _ _)
  · rw [heq] at hr
    exact absurd hr (updateByIdCatch_result_not_ok _ _ _ _ _)
  · rw [heq] at hr
    exact absurd hr (updateByIdCatch_result_not_ok _ _ _ _ _)
  · rw [hf] at hf2
    obtain rfl : doc = doc2 := Option.some.inj (Except.ok.inj hf2)
    rw [heq]
    exact ⟨rfl, getProp_setProp_same update "__v" (.num (doc.ver + 1))⟩

/-- Witness for claim C7 at a concrete successful update. -/
theorem claim_C7_witness :
    (updateById "a" [] behaviorAllOk).written =
      some (updateByIdWriteObject [] docV1.ver) :=
  (claim_C7 "a" [] behaviorAllOk docV1 (some docV2) rfl rfl).1

/-- Claim C8, counterexample: with `incVersion` set, `findOneAndUpdate`
overwrites the `$inc` field supplied by the caller of the update object — a field
other than `__v` is modified, so not every non-`__v` field is forwarded
unmodified. -/
theorem claim_C8_counterexample :
    getProp (findOneAndUpdateWriteObject
        [("$inc", JSValue.obj [("count", JSValue.num 5)])] "__v" true)
      "$inc" = .obj [("__v", JSValue.num 1)]
    ∧ getProp [("$inc", JSValue.obj [("count", JSValue.num 5)])] "$inc" =
      .obj [("count", JSValue.num 5)]
    ∧ JSValue.obj [("__v", JSValue.num 1)] ≠
      JSValue.obj [("count", JSValue.num 5)]
    ∧ ("$inc" : String) ≠ "__v" := by
  refine ⟨rfl, rfl, ?_, by decide⟩
  intro h
  injection h with h1
  injection h1 with h2 h3
  injection h2 with h4 h5
  exact absurd h4 (by decide)

/-- Claim C8, amended: the repository itself writes only the `__v` field
in `updateById` (set to the stored version plus one) and, in
`findOneAndUpdate` when `incVersion` is set, the `$inc` property of the
update object, overwritten with an increment of `versionKey` (which
defaults to `__v` but may name any field); every other field of the
filter, projection and update objects from the caller is forwarded to the
driver unmodified. -/
theorem claim_C8_amended (update u2 : JSObject) (storedVer : Int)
    (vk k : String) (f p : JSObject)
    (rl : Except DriverError (List StoredDoc))
    (ro : Except DriverError (Option StoredDoc))
    (h1 : k ≠ "__v") (h2 : k ≠ "$inc") :
    getProp (updateByIdWriteObject update storedVer) k = getProp update k
    ∧ getProp (updateByIdWriteObject update storedVer) "__v" =
      .num (storedVer + 1)
    ∧ getProp (findOneAndUpdateWriteObject u2 vk true) k = getProp u2 k
    ∧ findOneAndUpdateWriteObject u2 vk false = u2
    ∧ getProp (findOneAndUpdateWriteObject u2 vk true) "$inc" =
      .obj [(vk, JSValue.num 1)]
    ∧ (find f p rl).sent = [f, p]
    ∧ (findOne f p ro).sent = [f, p] :=
  ⟨getProp_setProp_other update "__v" (.num (storedVer + 1)) k h1,
    getProp_setProp_same update "__v" (.num (storedVer + 1)),
    getProp_setProp_other u2 "$inc" (.obj [(vk, JSValue.num 1)]) k h2,
    rfl,
    getProp_setProp_same u2 "$inc" (.obj [(vk, JSValue.num 1)]),
    rfl, rfl⟩

/-- Witness for the amended claim C8 at a concrete non-version field. -/
theorem claim_C8_amended_witness :
    getProp (updateByIdWriteObject [("name", JSValue.str "x")] 3) "name" =
      JSValue.str "x" :=
  (claim_C8_amended [("name", JSValue.str "x")] [] 3 "__v" "name" [] []
    (.ok []) (.ok none) (by decide) (by decide)).1

/-- Claim C10: no repository method retries a driver call — on every
execution, each underlying driver operation appears at most once in the
trace of every public method. -/
theorem claim_C10 (op : DriverOp) (o p : JSObject) (oo : List JSObject)
    (f idStr : String) (rd : Except DriverError StoredDoc)
    (rl : Except DriverError (List StoredDoc))
    (ro : Except DriverError (Option StoredDoc))
    (ri : Except DriverError Int) (rn : Except DriverError (Option Int))
    (rv : Except DriverError (List JSValue))
    (ru rc ra : Except DriverError Unit) (fo : FoauOptions)
    (dr : JSObject → Except DriverError (Option StoredDoc))
    (b : UpdateByIdBehavior) :
    (create o rd).trace.count op ≤ 1
    ∧ (createMany oo rl).trace.count op ≤ 1
    ∧ (find o p rl).trace.count op ≤ 1
    ∧ (findById idStr p ro).trace.count op ≤ 1
    ∧ (findOne o p ro).trace.count op ≤ 1
    ∧ (fullTextSearch f f rl).trace.count op ≤ 1
    ∧ (count o ri).trace.count op ≤ 1
    ∧ (distinctValues f o rv).trace.count op ≤ 1
    ∧ (updateOne o p rn).trace.count op ≤ 1
    ∧ (updateMany o p rn).trace.count op ≤ 1
    ∧ (findOneAndUpdate o p fo dr).trace.count op ≤ 1
    ∧ (updateById idStr o b).trace.count op ≤ 1
    ∧ (deleteOne o ri).trace.count op ≤ 1
    ∧ (deleteMany o ri).trace.count op ≤ 1
    ∧ (aggregate oo rv).trace.count op ≤ 1
    ∧ (startTransaction ru).trace.count op ≤ 1
    ∧ (commitTransaction rc ra).trace.count op ≤ 1
    ∧ (abortTransaction ra).trace.count op ≤ 1
    ∧ endTransaction.trace.count op ≤ 1 :=
  ⟨count_le_one_of_nodup [.saveOp] (by decide) op,
    count_le_one_of_nodup [.createOp] (by decide) op,
    count_le_one_of_nodup [.findOp] (by decide) op,
    count_le_one_of_nodup [.findByIdOp] (by decide) op,
    count_le_one_of_nodup [.findOneOp] (by decide) op,
    count_le_one_of_nodup [.findOp] (by decide) op,
    count_le_one_of_nodup [.countOp] (by decide) op,
    count_le_one_of_nodup [.distinctOp] (by decide) op,
    count_le_one_of_nodup [.updateOneOp] (by decide) op,
    count_le_one_of_nodup [.updateManyOp] (by decide) op,
    count_le_one_of_nodup [.findOneAndUpdateOp] (by decide) op,
    count_le_one_of_nodup _ (updateById_trace_nodup idStr o b) op,
    count_le_one_of_nodup [.deleteOneOp] (by decide) op,
    count_le_one_of_nodup [.deleteManyOp] (by decide) op,
    count_le_one_of_nodup [.aggregateOp] (by decide) op,
    count_le_one_of_nodup _ (startTransaction_trace_nodup ru) op,
    count_le_one_of_nodup _ (commitTransaction_trace_nodup rc ra) op,
    count_le_one_of_nodup _ (abortTransaction_trace_nodup ra) op,
    count_le_one_of_nodup [.endSessionOp] (by decide) op⟩

end EntityRepository
